import Mathlib

/-!
Verification development for `stickerV2.py` (Local-TG-Sticker-Downloader).

The script is embedded shallowly:

* Python/JSON values that flow out of the remote API and the config file are
  modelled by `PyVal`; dictionary subscription, `dict.get`, truthiness and
  iteration are modelled by `pyGetItem`, `pyGet`, `truthy` and `pyIter`,
  with uncaught Python exceptions modelled by `Except PyError`.
* The network, the image library and the filesystem are oracles collected in
  `Api`; the observable side effects of a run (directories created, download
  and conversion invocations, files removed, progress-counter advances,
  console error messages) are collected in a `Trace`.
* `download_sticker_pack`, `load_token` and `save_token` follow the source
  line by line; comments cite the line numbers of `stickerV2.py`.
-/

namespace StickerV2

/-- A Python value as produced by `json.load` / the Telegram API responses.
`null` is Python `None`.  (JSON numbers never occur in the modelled paths.) -/
inductive PyVal where
  | str (s : String)
  | bool (b : Bool)
  | obj (fields : List (String × PyVal))
  | arr (items : List PyVal)
  | null

/-- Uncaught Python exceptions that the modelled code can raise.
`osError` covers local filesystem failures (`OSError` from `open`/`write`
in `_download_file`, or from `os.makedirs`), which no handler in the
script catches. -/
inductive PyError where
  | keyError (k : String)
  | attributeError (m : String)
  | typeError (m : String)
  | osError (m : String)
deriving Repr, DecidableEq

/-- Python truthiness (`if x:`): empty containers, empty strings, `False`
and `None` are falsy. -/
def truthy : PyVal → Bool
  | .str s => !s.isEmpty
  | .bool b => b
  | .obj f => !f.isEmpty
  | .arr l => !l.isEmpty
  | .null => false

/-- Python subscription `v[k]` with a string key: `KeyError` on a dict
missing the key, `TypeError` on any non-dict value. -/
def pyGetItem (v : PyVal) (k : String) : Except PyError PyVal :=
  match v with
  | .obj fields =>
    match fields.lookup k with
    | some x => .ok x
    | Option.none => .error (.keyError k)
  | _ => .error (.typeError "value is not subscriptable with a str key")

/-- Python `v.get(k)`: defined on dicts (absent key yields `None`, modelled
as `Option.none`); `AttributeError` on any non-dict value. -/
def pyGet (v : PyVal) (k : String) : Except PyError (Option PyVal) :=
  match v with
  | .obj fields => .ok (fields.lookup k)
  | _ => .error (.attributeError "object has no attribute get")

/-- A context that requires an actual `str` (e.g. `os.path.splitext`):
`TypeError` on anything else. -/
def pyStr : PyVal → Except PyError String
  | .str s => .ok s
  | _ => .error (.typeError "expected str")

mutual

/-- Python `repr` of a value (string escaping inside `repr` of a `str` is not
modelled; no claim depends on it). -/
def pyRepr : PyVal → String
  | .str s => "\x27" ++ s ++ "\x27"
  | .bool true => "True"
  | .bool false => "False"
  | .null => "None"
  | .obj fields => "\x7b" ++ pyReprFields fields ++ "\x7d"
  | .arr items => "[" ++ pyReprItems items ++ "]"

/-- `repr` of the field list of a dict. -/
def pyReprFields : List (String × PyVal) → String
  | [] => ""
  | [(k, v)] => "\x27" ++ k ++ "\x27: " ++ pyRepr v
  | (k, v) :: rest => "\x27" ++ k ++ "\x27: " ++ pyRepr v ++ ", " ++ pyReprFields rest

/-- `repr` of the element list of a Python list. -/
def pyReprItems : List PyVal → String
  | [] => ""
  | [v] => pyRepr v
  | v :: rest => pyRepr v ++ ", " ++ pyReprItems rest

end

/-- Python `str(v)`, as used by f-string interpolation: the identity on
strings, `repr`-like on everything else. -/
def pyToStr : PyVal → String
  | .str s => s
  | v => pyRepr v

/-- Python iteration `for x in v`: lists yield their elements, strings yield
their one-character strings, dicts yield their keys; other values raise
`TypeError`. -/
def pyIter : PyVal → Except PyError (List PyVal)
  | .arr items => .ok items
  | .str s => .ok (s.data.map fun c => .str ⟨[c]⟩)
  | .obj fields => .ok (fields.map fun kv => .str kv.1)
  | _ => .error (.typeError "object is not iterable")

/-- `link.split('/')[-1]` (line 108): the substring after the last slash. -/
def lastSegment (s : String) : String :=
  ⟨(s.data.reverse.takeWhile (fun c => c != '/')).reverse⟩

/-- The extension component of `os.path.splitext` (posixpath, line 140):
the suffix of the basename starting at its last dot, except that a basename
consisting of leading dots only (e.g. `.bashrc`) has empty extension. -/
def splitextExt (path : String) : String :=
  let base := (path.data.reverse.takeWhile (fun c => c != '/')).reverse
  let rev := base.reverse
  let sufr := rev.takeWhile (fun c => c != '.')
  if sufr.length = rev.length then ""
  else
    let pre := rev.drop (sufr.length + 1)
    if pre.any (fun c => c != '.') then ⟨'.' :: sufr.reverse⟩ else ""

/-- Python `ext.lower()` (line 154).  The embedding lowercases
character-wise with the ASCII case map; the extensions compared against
`".webp"` are ASCII, on which Python agrees. -/
def pyLower (s : String) : String := ⟨s.data.map Char.toLower⟩

/-- Python `c.isalnum()` for a character.  The embedding uses the ASCII
alphanumeric test; the claims depend only on its value on ASCII characters
and on the facts that an underscore, a dot and a slash are not alphanumeric,
on which Python agrees. -/
def pyIsAlnum (c : Char) : Bool := c.isAlphanum

/-- `''.join(c for c in emoji if c.isalnum())` (line 145). -/
def sanitizeEmoji (emoji : String) : String := ⟨emoji.data.filter pyIsAlnum⟩

/-- The filename stem computed at lines 143-148: `file_unique_id`, an
underscore, and the sanitized emoji.  `emojiField` is the value of the
`emoji` key of the sticker descriptor when present; `sticker.get('emoji',
'sticker')` substitutes the default string only when the key is absent. -/
def stickerStem (uid : String) (emojiField : Option String) : String :=
  uid ++ "_" ++ sanitizeEmoji (emojiField.getD "sticker")

/-- `file_name = f"{file_unique_id}_{sanitized_emoji}{file_extension}"`
(line 148). -/
def stickerFileName (uid : String) (emojiField : Option String) (ext : String) : String :=
  stickerStem uid emojiField ++ ext

/-- Observable outcome of one `_convert_webp_to_png` call. -/
structure ConvOutcome where
  wroteDst : Bool
  removedSrc : Bool
  logged : Bool
deriving Repr, DecidableEq

/-- `_convert_webp_to_png` (lines 93-102) as a function of whether
`Image.open` succeeds on the source and whether `img.save` succeeds.
The body runs `open`, `save`, `os.remove(webp_path)` in order inside one
`try`; any exception is caught and logged.  A failing `open` or `save`
therefore skips `os.remove`; when both succeed the destination has been
written before the source is removed (`os.remove` on the just-opened file is
modelled as succeeding). -/
def convert_webp_to_png (openOk saveOk : Bool) : ConvOutcome :=
  if openOk then
    if saveOk then { wroteDst := true, removedSrc := true, logged := false }
    else { wroteDst := false, removedSrc := false, logged := true }
  else { wroteDst := false, removedSrc := false, logged := true }

/-- Oracles for the world outside the script: the two JSON API endpoints
(`None` models a caught `requests` exception in `_make_api_request`,
lines 54-60); whether the requests side of the streaming download of a
remote path succeeds (lines 82-89; a failure is a caught
`RequestException`); whether `open(save_path, 'wb')` and the chunk writes
succeed on a given destination path (an `OSError` there is not a
`RequestException` and is uncaught); whether `os.makedirs` succeeds on a
given directory (line 118; an `OSError` there is uncaught); and whether
`Image.open` / `img.save` succeed on a given source path (those failures
are caught by `except Exception`). -/
structure Api where
  getStickerSet : String → Option PyVal
  getFile : String → Option PyVal
  downloadOk : String → Bool
  openWriteOk : String → Bool
  makedirsOk : String → Bool
  openOk : String → Bool
  saveOk : String → Bool

/-- Observable side effects of a run of `download_sticker_pack`. -/
structure Trace where
  errors : List String
  madeDirs : List String
  downloadCalls : List (String × String)
  convertCalls : List (String × String)
  removed : List String
  downloadAdv : Nat
  convertAdv : Nat
  completed : Bool
deriving Repr, DecidableEq

/-- The trace at the start of a run. -/
def emptyTrace : Trace := ⟨[], [], [], [], [], 0, 0, false⟩

/-- `progress.update(download_task, advance=1)` (line 160): executed once at
the end of every iteration of the sticker loop. -/
def bump (tr : Trace) : Trace := { tr with downloadAdv := tr.downloadAdv + 1 }

/-- `_download_file` (lines 76-91): the `try` covers the whole body but the
`except` clause catches only `requests.exceptions.RequestException`.  A
requests failure — before or during streaming — is caught and logged and
the function returns normally with no success indication; an `OSError`
from `open(save_path, 'wb')` or `f.write` is not a `RequestException` and
propagates to the caller uncaught.  (`open` runs only after `requests.get`
succeeded, so the caught-network branch is consulted first; a world where
the open would fail after a requests failure is observationally the caught
failure.)  In no case does a normal return report success or failure. -/
def download_file (api : Api) (filePath savePath : String) (tr : Trace) :
    Except PyError Trace :=
  if api.downloadOk filePath then
    if api.openWriteOk savePath then
      .ok { tr with downloadCalls := tr.downloadCalls ++ [(filePath, savePath)] }
    else .error (.osError "open or write failed on the destination file")
  else
    .ok { tr with downloadCalls := tr.downloadCalls ++ [(filePath, savePath)],
                  errors := tr.errors ++ ["download"] }

/-- `_convert_webp_to_png` folded into the run trace: the invocation is
recorded, the source is removed exactly when the conversion outcome removed
it, and a failure logs a console message. -/
def convert_webp_to_png_run (api : Api) (src dst : String) (tr : Trace) : Trace :=
  let out := convert_webp_to_png (api.openOk src) (api.saveOk src)
  { tr with convertCalls := tr.convertCalls ++ [(src, dst)],
            removed := if out.removedSrc then tr.removed ++ [src] else tr.removed,
            errors := if out.logged then tr.errors ++ ["convert"] else tr.errors }

/-- The emoji annotation as a string option: absent key stays absent, a
present string is kept.  A present non-string value makes the character
filter of line 145 raise; the model reports it as `TypeError` (Python may
raise `TypeError` or `AttributeError` depending on the value; no claim
depends on the distinction). -/
def emojiStrOf : Option PyVal → Except PyError (Option String)
  | Option.none => .ok Option.none
  | some v =>
    match pyStr v with
    | .ok s => .ok (some s)
    | .error e => .error e

/-- Lines 140-159 for one sticker whose file location resolved to
`filePath`: compute the filename, attempt the download (whose uncaught
local-I/O failure aborts the run), convert when the extension lowercases to
`.webp`, and advance the convert counter (which, in the source, sits
outside the `.webp` test). -/
def processLocated (api : Api) (packFolder : String) (tr : Trace)
    (filePath uid : String) (emojiField : Option String) : Except PyError Trace :=
  let ext := splitextExt filePath
  let fname := stickerFileName uid emojiField ext
  let savePath := packFolder ++ "/" ++ fname
  match download_file api filePath savePath tr with
  | .error e => .error e
  | .ok tr1 =>
    let tr2 :=
      if pyLower ext = ".webp" then
        convert_webp_to_png_run api savePath
          (packFolder ++ "/" ++ (stickerStem uid emojiField ++ ".png")) tr1
      else tr1
    .ok { tr2 with convertAdv := tr2.convertAdv + 1 }

/-- One iteration of the loop at lines 136-160.  Evaluation order follows
the source: `sticker['file_id']`, the `getFile` call, the truthiness test
`if file_info and file_info.get("ok")`, then
`file_info['result']['file_path']`, `splitext`, `sticker['file_unique_id']`,
`sticker.get('emoji', 'sticker')`.  Every branch ends by advancing the
download counter (line 160 sits outside the `if` block). -/
def processSticker (api : Api) (packFolder : String) (tr : Trace) (sticker : PyVal) :
    Except PyError Trace :=
  match pyGetItem sticker "file_id" with
  | .error e => .error e
  | .ok fileId =>
    match api.getFile (pyToStr fileId) with
    | Option.none => .ok (bump tr)
    | some fi =>
      if truthy fi then
        match pyGet fi "ok" with
        | .error e => .error e
        | .ok okField =>
          if truthy (okField.getD .null) then
            match pyGetItem fi "result" with
            | .error e => .error e
            | .ok result =>
              match pyGetItem result "file_path" with
              | .error e => .error e
              | .ok fpVal =>
                match pyStr fpVal with
                | .error e => .error e
                | .ok filePath =>
                  match pyGetItem sticker "file_unique_id" with
                  | .error e => .error e
                  | .ok uidVal =>
                    match pyGet sticker "emoji" with
                    | .error e => .error e
                    | .ok emojiOpt =>
                      match emojiStrOf emojiOpt with
                      | .error e => .error e
                      | .ok emojiField =>
                        match processLocated api packFolder tr filePath
                            (pyToStr uidVal) emojiField with
                        | .error e => .error e
                        | .ok tl => .ok (bump tl)
          else .ok (bump tr)
      else .ok (bump tr)

/-- The `for sticker in stickers` loop, threading the trace; an uncaught
exception in an iteration aborts the loop. -/
def foldProcess (api : Api) (packFolder : String) : Trace → List PyVal → Except PyError Trace
  | tr, [] => .ok tr
  | tr, s :: rest =>
    match processSticker api packFolder tr s with
    | .error e => .error e
    | .ok tr1 => foldProcess api packFolder tr1 rest

/-- The trace produced by the early return of lines 113-115: one console
error message, no directory, no per-item work, no completion banner. -/
def packInfoErrorTrace : Trace := { emptyTrace with errors := ["pack_info"] }

/-- `download_sticker_pack` (lines 104-163).  The early-return test mirrors
`if not pack_info or not pack_info.get("ok")` with Python short-circuiting.
`os.makedirs` at line 118 is unguarded: an `OSError` there propagates
uncaught.  The directory is created before `pack_info['result']['title']`
(line 120) and `pack_info['result']['stickers']` (line 122) are read, but a
run that raises discards its partial trace, so the intermediate state is
unobservable in the error case. -/
def download_sticker_pack (api : Api) (link outputFolder : String) : Except PyError Trace :=
  let packName := lastSegment link
  match api.getStickerSet packName with
  | Option.none => .ok packInfoErrorTrace
  | some pi =>
    if truthy pi then
      match pyGet pi "ok" with
      | .error e => .error e
      | .ok okField =>
        if truthy (okField.getD .null) then
          let packFolder := outputFolder ++ "/" ++ packName
          if api.makedirsOk packFolder then
            let tr0 := { emptyTrace with madeDirs := [packFolder] }
            match pyGetItem pi "result" with
            | .error e => .error e
            | .ok result =>
              match pyGetItem result "title" with
              | .error e => .error e
              | .ok _ =>
                match pyGetItem result "stickers" with
                | .error e => .error e
                | .ok stickersVal =>
                  match pyIter stickersVal with
                  | .error e => .error e
                  | .ok stickers =>
                    match foldProcess api packFolder tr0 stickers with
                    | .error e => .error e
                    | .ok tr => .ok { tr with completed := true }
          else .error (.osError "makedirs failed")
        else .ok packInfoErrorTrace
    else .ok packInfoErrorTrace

/-- The data the loop body of lines 139-148 extracts for a sticker, when
every extraction step succeeds and the `file_info and file_info.get("ok")`
test passes: the resolved remote `file_path`, the stringified
`file_unique_id`, and the emoji field.  `Option.none` when the item is
skipped by the truthiness test or when some step would raise. -/
def stickerLocated (api : Api) (sticker : PyVal) : Option (String × String × Option String) :=
  match pyGetItem sticker "file_id" with
  | .error _ => Option.none
  | .ok fileId =>
    match api.getFile (pyToStr fileId) with
    | Option.none => Option.none
    | some fi =>
      if truthy fi then
        match pyGet fi "ok" with
        | .error _ => Option.none
        | .ok okField =>
          if truthy (okField.getD .null) then
            match pyGetItem fi "result" with
            | .error _ => Option.none
            | .ok result =>
              match pyGetItem result "file_path" with
              | .error _ => Option.none
              | .ok fpVal =>
                match pyStr fpVal with
                | .error _ => Option.none
                | .ok filePath =>
                  match pyGetItem sticker "file_unique_id" with
                  | .error _ => Option.none
                  | .ok uidVal =>
                    match pyGet sticker "emoji" with
                    | .error _ => Option.none
                    | .ok emojiOpt =>
                      match emojiStrOf emojiOpt with
                      | .error _ => Option.none
                      | .ok emojiField => some (filePath, pyToStr uidVal, emojiField)
          else Option.none
      else Option.none

/-- Whether the loop body resolves the sticker to a location whose extension
lowercases to `.webp` (the test of line 154). -/
def stickerIsWebp (api : Api) (sticker : PyVal) : Bool :=
  match stickerLocated api sticker with
  | some (fp, _, _) => pyLower (splitextExt fp) = ".webp"
  | Option.none => false

/-- The sticker-descriptor list of the pack metadata, extracted along the
same access path as `download_sticker_pack` (minus the `title` read, which
does not affect the list): `Option.none` when the fetch failed, the response
is not ok, or an extraction step would raise. -/
def packStickers (api : Api) (link : String) : Option (List PyVal) :=
  match api.getStickerSet (lastSegment link) with
  | Option.none => Option.none
  | some pi =>
    if truthy pi then
      match pyGet pi "ok" with
      | .error _ => Option.none
      | .ok okField =>
        if truthy (okField.getD .null) then
          match pyGetItem pi "result" with
          | .error _ => Option.none
          | .ok result =>
            match pyGetItem result "stickers" with
            | .error _ => Option.none
            | .ok stickersVal =>
              match pyIter stickersVal with
              | .error _ => Option.none
              | .ok stickers => some stickers
        else Option.none
    else Option.none

/-- The states the config file can be in when `load_token` runs: absent,
present but rejected by `json.load` with a `JSONDecodeError`, or present and
parsed to a JSON value. -/
inductive ConfigFile where
  | absent
  | malformed
  | parsed (v : PyVal)

/-- `load_token` (lines 165-174): `None` when the file does not exist;
`json.load` then `config.get("bot_token")` inside a
`try/except json.JSONDecodeError` otherwise, so a decode failure yields
`None`, while `.get` on a parsed non-dict raises `AttributeError`, which is
not caught. -/
def load_token : ConfigFile → Except PyError PyVal
  | .absent => .ok .null
  | .malformed => .ok .null
  | .parsed v =>
    match pyGet v "bot_token" with
    | .error e => .error e
    | .ok r => .ok (r.getD .null)

/-- `save_token` (lines 176-179): writes `json.dump({"bot_token": token})`.
The resulting file state is the parsed form of that document;
serialization followed by parsing is the identity on the modelled values. -/
def save_token (token : String) : ConfigFile :=
  .parsed (.obj [("bot_token", .str token)])

/-- A sticker descriptor shape that the loop body of lines 136-160 can
process without raising: a dict with `file_id` and `file_unique_id`
present and with `emoji` absent or a string. -/
def WellShapedSticker (s : PyVal) : Prop :=
  ∃ fields fid uid, s = .obj fields ∧
    fields.lookup "file_id" = some fid ∧
    fields.lookup "file_unique_id" = some uid ∧
    (fields.lookup "emoji" = Option.none ∨ ∃ e, fields.lookup "emoji" = some (.str e))

/-- A `getFile` response shape that the loop body can process without
raising: a caught network failure, a falsy value, or a dict that is either
not ok or carries `result.file_path` as a string. -/
def WellShapedFileInfo : Option PyVal → Prop
  | Option.none => True
  | some v => truthy v = false ∨
      ∃ fields, v = .obj fields ∧
        (truthy (((fields.lookup "ok").getD .null)) = false ∨
          ∃ rfields fp, fields.lookup "result" = some (.obj rfields) ∧
            rfields.lookup "file_path" = some (.str fp))

/-- A `getStickerSet` response shape that `download_sticker_pack` can
process without raising: a caught network failure, a falsy value, or a dict
that is either not ok or carries `result` with a `title`, a list of
stickers, and every sticker well shaped. -/
def WellShapedPackInfo : Option PyVal → Prop
  | Option.none => True
  | some v => truthy v = false ∨
      ∃ fields, v = .obj fields ∧
        (truthy (((fields.lookup "ok").getD .null)) = false ∨
          ∃ rfields title stks, fields.lookup "result" = some (.obj rfields) ∧
            rfields.lookup "title" = some title ∧
            rfields.lookup "stickers" = some (.arr stks) ∧
            ∀ s ∈ stks, WellShapedSticker s)

/-! Concrete inputs used to evaluate the model at specific points. -/

/-- A well-formed sticker descriptor whose file resolves to a `.tgs` path. -/
def stkTgs : PyVal :=
  .obj [("file_id", .str "F1"), ("file_unique_id", .str "U1"), ("emoji", .str "a")]

/-- An API world with one `.tgs` sticker; every operation succeeds. -/
def apiC3 : Api :=
  { getStickerSet := fun _ => some (.obj [("ok", .bool true),
      ("result", .obj [("title", .str "T"), ("stickers", .arr [stkTgs])])]),
    getFile := fun _ => some (.obj [("ok", .bool true),
      ("result", .obj [("file_path", .str "documents/file.tgs")])]),
    downloadOk := fun _ => true, openWriteOk := fun _ => true,
    makedirsOk := fun _ => true, openOk := fun _ => true, saveOk := fun _ => true }

/-- The trace of processing `stkTgs` in `apiC3` (the run is successful, so
the fallback branch is never taken). -/
def trC3 : Trace :=
  match processSticker apiC3 "stickers/P" emptyTrace stkTgs with
  | .ok t => t
  | .error _ => emptyTrace

/-- An API world whose metadata response is ok but carries no `result`. -/
def apiC8 : Api :=
  { getStickerSet := fun _ => some (.obj [("ok", .bool true)]),
    getFile := fun _ => Option.none,
    downloadOk := fun _ => false, openWriteOk := fun _ => true,
    makedirsOk := fun _ => true, openOk := fun _ => false, saveOk := fun _ => false }

/-- The world of `apiC3` except that `open`/`write` on the destination file
fails with an `OSError`. -/
def apiOsFail : Api :=
  { apiC3 with openWriteOk := fun _ => false }

/-- The world of `apiC3` except that `os.makedirs` fails with an
`OSError`. -/
def apiMkdirFail : Api :=
  { apiC3 with makedirsOk := fun _ => false }

/-- An API world in which every remote call fails with a caught network
error and the local filesystem works. -/
def apiQuiet : Api :=
  { getStickerSet := fun _ => Option.none,
    getFile := fun _ => Option.none,
    downloadOk := fun _ => false, openWriteOk := fun _ => true,
    makedirsOk := fun _ => true, openOk := fun _ => false, saveOk := fun _ => false }

/-- A well-formed sticker descriptor whose file resolves to a `.webp` path. -/
def stkWebp : PyVal :=
  .obj [("file_id", .str "F2"), ("file_unique_id", .str "U2"), ("emoji", .str "b")]

/-- An API world with one `.webp` sticker in which the byte-stream download
and the image conversion both fail (with caught exceptions). -/
def apiWebp : Api :=
  { getStickerSet := fun _ => some (.obj [("ok", .bool true),
      ("result", .obj [("title", .str "T"), ("stickers", .arr [stkWebp])])]),
    getFile := fun _ => some (.obj [("ok", .bool true),
      ("result", .obj [("file_path", .str "stickers/file_2.webp")])]),
    downloadOk := fun _ => false, openWriteOk := fun _ => true,
    makedirsOk := fun _ => true, openOk := fun _ => false, saveOk := fun _ => false }

/-- The trace of processing `stkWebp` in `apiWebp`. -/
def trC10 : Trace :=
  match processSticker apiWebp "stickers/P" emptyTrace stkWebp with
  | .ok t => t
  | .error _ => emptyTrace

/-- Two well-formed sticker descriptors (the second without an emoji). -/
def stkA : PyVal :=
  .obj [("file_id", .str "FA"), ("file_unique_id", .str "UA"), ("emoji", .str "x")]

/-- Second descriptor of the two-sticker pack. -/
def stkB : PyVal :=
  .obj [("file_id", .str "FB"), ("file_unique_id", .str "UB")]

/-- An API world with a two-sticker pack in which every per-item location
lookup fails with a caught network error. -/
def apiC7 : Api :=
  { getStickerSet := fun _ => some (.obj [("ok", .bool true),
      ("result", .obj [("title", .str "T"), ("stickers", .arr [stkA, stkB])])]),
    getFile := fun _ => Option.none,
    downloadOk := fun _ => false, openWriteOk := fun _ => true,
    makedirsOk := fun _ => true, openOk := fun _ => false, saveOk := fun _ => false }

/-- The trace of the full run over the two-sticker pack of `apiC7`. -/
def trC7 : Trace :=
  match download_sticker_pack apiC7 "t.me/addstickers/Q" "stickers" with
  | .ok t => t
  | .error _ => emptyTrace

/-! Helper lemmas. -/

/-- No character of a sanitized emoji is an underscore: the filter of
line 145 keeps only alphanumeric characters. -/
theorem sanitizeEmoji_no_underscore (e : String) : '_' ∉ (sanitizeEmoji e).data := by
  intro hmem
  have h : pyIsAlnum '_' = true := List.of_mem_filter hmem
  exact absurd h (by decide)

/-- Cancellation at the final underscore: appending an underscore and an
underscore-free tail is injective in the front part. -/
theorem underscore_split_inj (u1 u2 r1 r2 : List Char)
    (h1 : '_' ∉ r1) (h2 : '_' ∉ r2)
    (h : u1 ++ '_' :: r1 = u2 ++ '_' :: r2) : u1 = u2 := by
  induction u1 generalizing u2 with
  | nil =>
    cases u2 with
    | nil => rfl
    | cons b t =>
      simp only [List.nil_append, List.cons_append, List.cons.injEq] at h
      exact absurd (h.2 ▸ (by simp : '_' ∈ t ++ '_' :: r2)) h1
  | cons a t ih =>
    cases u2 with
    | nil =>
      simp only [List.nil_append, List.cons_append, List.cons.injEq] at h
      exact absurd (h.2.symm ▸ (by simp : '_' ∈ t ++ '_' :: r1)) h2
    | cons b s =>
      simp only [List.cons_append, List.cons.injEq] at h
      rw [h.1, ih s h.2]

/-! Claim theorems. -/

/-- C1 counterexample: a sticker descriptor whose emoji annotation is
present but empty filters to the empty string, and the stem computed at
lines 143-148 is `AAA_`, not the placeholder form `AAA_sticker` the claim
requires for every empty-after-filtering annotation. -/
theorem c1_counterexample :
    sanitizeEmoji "" = "" ∧
    stickerStem "AAA" (some "") = "AAA_" ∧
    stickerStem "AAA" (some "") ≠ "AAA_sticker" := by decide

/-- C1 (amended): when the emoji key is present the stem is the unique
identifier, an underscore, and the alphanumeric filtering of the annotation
— even when that filtering is empty; the placeholder word appears exactly
when the emoji key is absent from the descriptor, in which case the stem is
`<unique_id>_sticker`. -/
theorem c1_theorem : ∀ (uid e : String),
    stickerStem uid (some e) = uid ++ "_" ++ sanitizeEmoji e ∧
    stickerStem uid Option.none = uid ++ "_sticker" := by
  intro uid e
  constructor
  · rfl
  · show uid ++ "_" ++ sanitizeEmoji "sticker" = uid ++ "_sticker"
    rw [show sanitizeEmoji "sticker" = "sticker" from rfl, String.append_assoc]
    rfl

/-- C2 counterexample: two descriptors with distinct unique identifiers
(`A` and `A_.x`) whose resolved extensions are `.x_y` (from path
`stickers/f.x_y`) and the empty extension (from path `stickers/f`) produce
the same output filename `A_.x_y`. -/
theorem c2_counterexample :
    ("A" : String) ≠ "A_.x" ∧
    splitextExt "stickers/f.x_y" = ".x_y" ∧
    splitextExt "stickers/f" = "" ∧
    stickerFileName "A" (some "") (splitextExt "stickers/f.x_y") =
      stickerFileName "A_.x" (some "y") (splitextExt "stickers/f") := by decide

/-- C2 (amended): for two sticker descriptors with distinct unique
identifiers the filenames computed at line 148 are distinct, for every pair
of emoji annotations (including identical, empty or absent ones) and for
every pair of resolved file paths whose extensions contain no underscore
(every real sticker extension such as `.webp` or `.tgs` qualifies). -/
theorem c2_theorem (u1 u2 p1 p2 : String) (e1 e2 : Option String)
    (hu : u1 ≠ u2)
    (hx1 : '_' ∉ (splitextExt p1).data) (hx2 : '_' ∉ (splitextExt p2).data) :
    stickerFileName u1 e1 (splitextExt p1) ≠ stickerFileName u2 e2 (splitextExt p2) := by
  intro h
  apply hu
  apply String.ext
  have hd := congrArg String.data h
  rw [stickerFileName, stickerFileName, stickerStem, stickerStem] at hd
  simp only [String.data_append] at hd
  simp only [List.append_assoc, List.singleton_append] at hd
  refine underscore_split_inj _ _ _ _ ?_ ?_ hd
  · intro hm
    rcases List.mem_append.mp hm with hm | hm
    · exact sanitizeEmoji_no_underscore _ hm
    · exact hx1 hm
  · intro hm
    rcases List.mem_append.mp hm with hm | hm
    · exact sanitizeEmoji_no_underscore _ hm
    · exact hx2 hm

/-- C2 witness: two concretely distinct unique identifiers with the same
`.webp` path give distinct filenames. -/
theorem c2_witness :
    stickerFileName "AAA" (some "a") (splitextExt "stickers/f.webp") ≠
      stickerFileName "BBB" (some "a") (splitextExt "stickers/f.webp") :=
  c2_theorem "AAA" "BBB" "stickers/f.webp" "stickers/f.webp" (some "a") (some "a")
    (by decide) (by decide) (by decide)

/-- C4 counterexample: a config file that parses as JSON but to a non-object
(here the empty list) makes `load_token` raise `AttributeError` from
`config.get("bot_token")` — `load_token` does not return absence for every
state of the file. -/
theorem c4_counterexample :
    load_token (.parsed (.arr [])) = .error (.attributeError "object has no attribute get") := rfl

/-- C4 (amended): `load_token` returns absence without raising when the
file is missing, when `json.load` fails with a `JSONDecodeError`, or when
the file parses to an object lacking the `bot_token` field — the last case
behaving identically to no file present; a file parsing to a non-object
JSON value instead raises an uncaught `AttributeError`. -/
theorem c4_theorem (fields : List (String × PyVal))
    (h : fields.lookup "bot_token" = Option.none) :
    load_token (.parsed (.obj fields)) = .ok .null ∧
    load_token .absent = .ok .null ∧
    load_token .malformed = .ok .null ∧
    load_token (.parsed (.obj fields)) = load_token .absent := by
  refine ⟨?_, rfl, rfl, ?_⟩ <;> simp [load_token, pyGet, h]

/-- C4 witness: a present config file whose object lacks `bot_token`
behaves exactly like an absent file. -/
theorem c4_witness :
    load_token (.parsed (.obj [("other", .str "x")])) = .ok .null ∧
    load_token .absent = .ok .null ∧
    load_token .malformed = .ok .null ∧
    load_token (.parsed (.obj [("other", .str "x")])) = load_token .absent :=
  c4_theorem [("other", .str "x")] rfl

/-- C6: `_convert_webp_to_png` removes the source exactly when both
`Image.open` and `img.save` succeed; on success the destination was written
before the removal, and on any failure the error is logged and the source
is left in place. -/
theorem c6_theorem : ∀ openOk saveOk : Bool,
    (convert_webp_to_png openOk saveOk).removedSrc = (openOk && saveOk) ∧
    (convert_webp_to_png openOk saveOk).wroteDst = (openOk && saveOk) ∧
    (convert_webp_to_png openOk saveOk).logged = !(openOk && saveOk) := by decide

/-- C9: the credential store round-trips — saving a token and loading the
resulting config file returns exactly that token. -/
theorem c9_theorem : ∀ t : String, load_token (save_token t) = .ok (.str t) :=
  fun _ => rfl

/-! Lemmas about the per-item loop. -/

/-- A normal return of `_download_file` leaves the conversion bookkeeping
and the download counter untouched. -/
theorem download_file_ok (api : Api) (f s : String) (tr tr1 : Trace)
    (h : download_file api f s tr = .ok tr1) :
    tr1.convertCalls = tr.convertCalls ∧ tr1.convertAdv = tr.convertAdv ∧
    tr1.downloadAdv = tr.downloadAdv := by
  rw [download_file] at h
  cases hdl : api.downloadOk f with
  | false =>
    simp only [hdl, Bool.false_eq_true, if_false, Except.ok.injEq] at h
    subst h
    exact ⟨rfl, rfl, rfl⟩
  | true =>
    cases how : api.openWriteOk s with
    | false => simp [hdl, how] at h
    | true =>
      simp only [hdl, how, if_true, Except.ok.injEq] at h
      subst h
      exact ⟨rfl, rfl, rfl⟩

/-- When `open`/`write` succeeds on every destination, `_download_file`
returns normally — whether or not the requests side fails (a requests
failure is caught). -/
theorem download_file_total (api : Api) (how : ∀ p, api.openWriteOk p = true)
    (f s : String) (tr : Trace) : ∃ tr1, download_file api f s tr = .ok tr1 := by
  rw [download_file]
  cases hdl : api.downloadOk f with
  | false => simp
  | true => simp [how]

theorem conv_run_convertCalls (api : Api) (src dst : String) (tr : Trace) :
    (convert_webp_to_png_run api src dst tr).convertCalls = tr.convertCalls ++ [(src, dst)] := rfl

theorem conv_run_convertAdv (api : Api) (src dst : String) (tr : Trace) :
    (convert_webp_to_png_run api src dst tr).convertAdv = tr.convertAdv := rfl

theorem conv_run_downloadAdv (api : Api) (src dst : String) (tr : Trace) :
    (convert_webp_to_png_run api src dst tr).downloadAdv = tr.downloadAdv := rfl

theorem processLocated_ok_downloadAdv (api : Api) (pf : String) (tr : Trace)
    (fp uid : String) (ef : Option String) (tl : Trace)
    (h : processLocated api pf tr fp uid ef = .ok tl) :
    tl.downloadAdv = tr.downloadAdv := by
  simp only [processLocated] at h
  cases hdf : download_file api fp (pf ++ "/" ++ stickerFileName uid ef (splitextExt fp)) tr with
  | error e => simp only [hdf] at h; exact Except.noConfusion h
  | ok tr1 =>
    simp only [hdf, Except.ok.injEq] at h
    subst h
    have hda := (download_file_ok api fp _ tr tr1 hdf).2.2
    split
    · simp [conv_run_downloadAdv, hda]
    · simp [hda]

theorem processLocated_ok_convertAdv (api : Api) (pf : String) (tr : Trace)
    (fp uid : String) (ef : Option String) (tl : Trace)
    (h : processLocated api pf tr fp uid ef = .ok tl) :
    tl.convertAdv = tr.convertAdv + 1 := by
  simp only [processLocated] at h
  cases hdf : download_file api fp (pf ++ "/" ++ stickerFileName uid ef (splitextExt fp)) tr with
  | error e => simp only [hdf] at h; exact Except.noConfusion h
  | ok tr1 =>
    simp only [hdf, Except.ok.injEq] at h
    subst h
    have hca := (download_file_ok api fp _ tr tr1 hdf).2.1
    split
    · simp [conv_run_convertAdv, hca]
    · simp [hca]

theorem processLocated_ok_convertCalls (api : Api) (pf : String) (tr : Trace)
    (fp uid : String) (ef : Option String) (tl : Trace)
    (h : processLocated api pf tr fp uid ef = .ok tl) :
    tl.convertCalls =
      if pyLower (splitextExt fp) = ".webp" then
        tr.convertCalls ++ [(pf ++ "/" ++ stickerFileName uid ef (splitextExt fp),
          pf ++ "/" ++ (stickerStem uid ef ++ ".png"))]
      else tr.convertCalls := by
  simp only [processLocated] at h
  cases hdf : download_file api fp (pf ++ "/" ++ stickerFileName uid ef (splitextExt fp)) tr with
  | error e => simp only [hdf] at h; exact Except.noConfusion h
  | ok tr1 =>
    simp only [hdf, Except.ok.injEq] at h
    subst h
    have hcc := (download_file_ok api fp _ tr tr1 hdf).1
    split
    · simp [conv_run_convertCalls, hcc]
    · simp [hcc]

/-- When `open`/`write` succeeds on every destination, a located item is
processed without raising, for every download and conversion oracle. -/
theorem processLocated_total (api : Api) (pf : String) (tr : Trace)
    (fp uid : String) (ef : Option String) (how : ∀ p, api.openWriteOk p = true) :
    ∃ tl, processLocated api pf tr fp uid ef = .ok tl := by
  obtain ⟨tr1, h1⟩ := download_file_total api how fp
    (pf ++ "/" ++ stickerFileName uid ef (splitextExt fp)) tr
  simp only [processLocated, h1]
  simp

theorem bump_downloadAdv (tr : Trace) : (bump tr).downloadAdv = tr.downloadAdv + 1 := rfl

theorem bump_convertAdv (tr : Trace) : (bump tr).convertAdv = tr.convertAdv := rfl

theorem bump_convertCalls (tr : Trace) : (bump tr).convertCalls = tr.convertCalls := rfl

/-- Shape of a non-raising loop iteration: either the item was located and
the body ran to completion on it, or the truthiness test skipped it; in
both cases the download counter is bumped at the end. -/
theorem processSticker_ok (api : Api) (pf : String) (tr : Trace) (s : PyVal) (tr' : Trace)
    (h : processSticker api pf tr s = .ok tr') :
    (∃ fp uid ef tl, stickerLocated api s = some (fp, uid, ef) ∧
        processLocated api pf tr fp uid ef = .ok tl ∧ tr' = bump tl) ∨
    (stickerLocated api s = Option.none ∧ tr' = bump tr) := by
  rw [processSticker] at h
  cases hfid : pyGetItem s "file_id" with
  | error e => simp only [hfid] at h; exact Except.noConfusion h
  | ok fid =>
    simp only [hfid] at h
    cases hfi : api.getFile (pyToStr fid) with
    | none =>
      simp only [hfi] at h
      right
      simp only [Except.ok.injEq] at h
      exact ⟨by simp [stickerLocated, hfid, hfi], h.symm⟩
    | some fi =>
      simp only [hfi] at h
      cases ht : truthy fi with
      | false =>
        simp only [ht] at h
        simp only [Bool.false_eq_true, if_false, Except.ok.injEq] at h
        right
        exact ⟨by simp [stickerLocated, hfid, hfi, ht], h.symm⟩
      | true =>
        simp only [ht, if_true] at h
        cases hok : pyGet fi "ok" with
        | error e => simp only [hok] at h; exact Except.noConfusion h
        | ok okField =>
          simp only [hok] at h
          cases hto : truthy (okField.getD .null) with
          | false =>
            simp only [hto, Bool.false_eq_true, if_false, Except.ok.injEq] at h
            right
            exact ⟨by simp [stickerLocated, hfid, hfi, ht, hok, hto], h.symm⟩
          | true =>
            simp only [hto, if_true] at h
            cases hres : pyGetItem fi "result" with
            | error e => simp only [hres] at h; exact Except.noConfusion h
            | ok result =>
              simp only [hres] at h
              cases hfp : pyGetItem result "file_path" with
              | error e => simp only [hfp] at h; exact Except.noConfusion h
              | ok fpVal =>
                simp only [hfp] at h
                cases hstr : pyStr fpVal with
                | error e => simp only [hstr] at h; exact Except.noConfusion h
                | ok filePath =>
                  simp only [hstr] at h
                  cases huid : pyGetItem s "file_unique_id" with
                  | error e => simp only [huid] at h; exact Except.noConfusion h
                  | ok uidVal =>
                    simp only [huid] at h
                    cases hem : pyGet s "emoji" with
                    | error e => simp only [hem] at h; exact Except.noConfusion h
                    | ok emojiOpt =>
                      simp only [hem] at h
                      cases hes : emojiStrOf emojiOpt with
                      | error e => simp only [hes] at h; exact Except.noConfusion h
                      | ok emojiField =>
                        simp only [hes] at h
                        cases hpl : processLocated api pf tr filePath
                            (pyToStr uidVal) emojiField with
                        | error e => simp only [hpl] at h; exact Except.noConfusion h
                        | ok tl =>
                          simp only [hpl, Except.ok.injEq] at h
                          left
                          refine ⟨filePath, pyToStr uidVal, emojiField, tl, ?_, hpl, h.symm⟩
                          simp [stickerLocated, hfid, hfi, ht, hok, hto, hres, hfp, hstr,
                            huid, hem, hes]

/-- Every successfully processed item advances the download counter by
exactly one, whether or not its location lookup succeeded. -/
theorem processSticker_downloadAdv (api : Api) (pf : String) (tr : Trace) (s : PyVal)
    (tr' : Trace) (h : processSticker api pf tr s = .ok tr') :
    tr'.downloadAdv = tr.downloadAdv + 1 := by
  rcases processSticker_ok api pf tr s tr' h with ⟨fp, uid, ef, tl, _, hpl, rfl⟩ | ⟨_, rfl⟩
  · rw [bump_downloadAdv, processLocated_ok_downloadAdv api pf tr fp uid ef tl hpl]
  · rw [bump_downloadAdv]

/-- A completed sticker loop advances the download counter once per
element of the list. -/
theorem foldProcess_downloadAdv (api : Api) (pf : String) :
    ∀ (l : List PyVal) (tr tr' : Trace), foldProcess api pf tr l = .ok tr' →
      tr'.downloadAdv = tr.downloadAdv + l.length := by
  intro l
  induction l with
  | nil =>
    intro tr tr' h
    simp only [foldProcess, Except.ok.injEq] at h
    simp [← h]
  | cons s rest ih =>
    intro tr tr' h
    simp only [foldProcess] at h
    cases hp : processSticker api pf tr s with
    | error e => rw [hp] at h; exact Except.noConfusion h
    | ok tr1 =>
      simp only [hp] at h
      have h1 := processSticker_downloadAdv api pf tr s tr1 hp
      have h2 := ih tr1 tr' h
      rw [h2, h1, List.length_cons]
      omega

/-- C3 (amended): in the per-item loop, the "convert" progress counter is
advanced by one unit exactly for those items whose file-location lookup
succeeds (the loop body runs), regardless of extension — the update at line
159 sits outside the `.webp` test; the Image Converter itself is invoked
exactly for the located items whose extension lowercases to `.webp`. -/
theorem c3_theorem (api : Api) (pf : String) (tr : Trace) (s : PyVal) (tr' : Trace)
    (h : processSticker api pf tr s = .ok tr') :
    tr'.convertAdv = tr.convertAdv + (if (stickerLocated api s).isSome then 1 else 0) ∧
    tr'.convertCalls.length =
      tr.convertCalls.length + (if stickerIsWebp api s then 1 else 0) := by
  rcases processSticker_ok api pf tr s tr' h with ⟨fp, uid, ef, tl, hloc, hpl, rfl⟩ | ⟨hloc, rfl⟩
  · constructor
    · rw [bump_convertAdv, processLocated_ok_convertAdv api pf tr fp uid ef tl hpl, hloc]
      rfl
    · rw [bump_convertCalls, processLocated_ok_convertCalls api pf tr fp uid ef tl hpl]
      simp only [stickerIsWebp, hloc]
      split
      · rename_i hc
        simp [hc]
      · rename_i hc
        simp [hc]
  · constructor
    · rw [bump_convertAdv, hloc]
      rfl
    · rw [bump_convertCalls]
      simp only [stickerIsWebp, hloc]
      rfl

/-- C10: a byte-stream download failure is invisible to the caller —
`_download_file` returns normally with no success indication — so for every
item located at a `.webp` path the conversion step is invoked on the
computed destination path, for every download oracle, including one in
which the download failed and the destination file is partial or absent. -/
theorem c10_theorem (api : Api) (pf : String) (tr : Trace) (s : PyVal) (tr' : Trace)
    (h : processSticker api pf tr s = .ok tr')
    (hw : stickerIsWebp api s = true) :
    ∃ fp uid ef, stickerLocated api s = some (fp, uid, ef) ∧
      tr'.convertCalls = tr.convertCalls ++
        [(pf ++ "/" ++ stickerFileName uid ef (splitextExt fp),
          pf ++ "/" ++ (stickerStem uid ef ++ ".png"))] := by
  rcases processSticker_ok api pf tr s tr' h with ⟨fp, uid, ef, tl, hloc, hpl, rfl⟩ | ⟨hloc, rfl⟩
  · refine ⟨fp, uid, ef, hloc, ?_⟩
    have hcond : pyLower (splitextExt fp) = ".webp" := by
      simp only [stickerIsWebp, hloc, decide_eq_true_eq] at hw
      exact hw
    rw [bump_convertCalls, processLocated_ok_convertCalls api pf tr fp uid ef tl hpl,
      if_pos hcond]
  · simp only [stickerIsWebp, hloc] at hw
    exact Bool.noConfusion hw

/-- C5: when the pack metadata fetch returns absence or a not-ok result,
`download_sticker_pack` reports an error and returns before creating the
output directory: no directory is created, no download or conversion is
invoked, and both progress counters stay at zero. -/
theorem c5_theorem (api : Api) (link out : String)
    (h : api.getStickerSet (lastSegment link) = Option.none ∨
      ∃ fields, api.getStickerSet (lastSegment link) = some (.obj fields) ∧
        truthy ((fields.lookup "ok").getD .null) = false) :
    download_sticker_pack api link out = .ok packInfoErrorTrace ∧
    packInfoErrorTrace.madeDirs = [] ∧ packInfoErrorTrace.downloadCalls = [] ∧
    packInfoErrorTrace.convertCalls = [] ∧ packInfoErrorTrace.downloadAdv = 0 ∧
    packInfoErrorTrace.convertAdv = 0 ∧ packInfoErrorTrace.errors = ["pack_info"] ∧
    packInfoErrorTrace.completed = false := by
  refine ⟨?_, rfl, rfl, rfl, rfl, rfl, rfl, rfl⟩
  rcases h with h | ⟨fields, h, hok⟩
  · simp [download_sticker_pack, h]
  · cases hft : truthy (.obj fields) with
    | false => simp [download_sticker_pack, h, hft]
    | true => simp [download_sticker_pack, h, hft, pyGet, hok]

/-- C7: for every completed run, the "download" progress counter equals the
number of sticker descriptors in the pack, whether or not the individual
location lookups or byte-stream fetches succeed. -/
theorem c7_theorem (api : Api) (link out : String) (tr : Trace) (l : List PyVal)
    (h : download_sticker_pack api link out = .ok tr)
    (hl : packStickers api link = some l) :
    tr.downloadAdv = l.length := by
  simp only [download_sticker_pack] at h
  simp only [packStickers] at hl
  cases hg : api.getStickerSet (lastSegment link) with
  | none => rw [hg] at hl; exact Option.noConfusion hl
  | some pi =>
    simp only [hg] at h hl
    cases hft : truthy pi with
    | false => simp only [hft, Bool.false_eq_true, if_false] at hl; exact Option.noConfusion hl
    | true =>
      simp only [hft, if_true] at h hl
      cases hok : pyGet pi "ok" with
      | error e => simp only [hok] at hl; exact Option.noConfusion hl
      | ok okF =>
        simp only [hok] at h hl
        cases hto : truthy (okF.getD .null) with
        | false => simp only [hto, Bool.false_eq_true, if_false] at hl; exact Option.noConfusion hl
        | true =>
          simp only [hto, if_true] at h hl
          cases hmk : api.makedirsOk (out ++ "/" ++ lastSegment link) with
          | false =>
            simp only [hmk, Bool.false_eq_true, if_false] at h
            exact Except.noConfusion h
          | true =>
            simp only [hmk, if_true] at h
            cases hres : pyGetItem pi "result" with
            | error e => simp only [hres] at hl; exact Option.noConfusion hl
            | ok result =>
              simp only [hres] at h hl
              cases htit : pyGetItem result "title" with
              | error e => simp only [htit] at h; exact Except.noConfusion h
              | ok titleVal =>
                simp only [htit] at h
                cases hstk : pyGetItem result "stickers" with
                | error e => simp only [hstk] at hl; exact Option.noConfusion hl
                | ok sv =>
                  simp only [hstk] at h hl
                  cases hit : pyIter sv with
                  | error e => simp only [hit] at hl; exact Option.noConfusion hl
                  | ok stks =>
                    simp only [hit, Option.some.injEq] at h hl
                    subst hl
                    cases hfold : foldProcess api (out ++ "/" ++ lastSegment link)
                        { emptyTrace with madeDirs := [out ++ "/" ++ lastSegment link] } stks with
                    | error e => rw [hfold] at h; exact Except.noConfusion h
                    | ok trf =>
                      rw [hfold] at h
                      simp only [Except.ok.injEq] at h
                      have hda := foldProcess_downloadAdv api (out ++ "/" ++ lastSegment link)
                        stks _ trf hfold
                      rw [← h]
                      simpa [emptyTrace] using hda

/-- A well-shaped sticker descriptor is processed without raising, for
every well-shaped file-info oracle, when `open`/`write` succeeds on every
destination. -/
theorem processSticker_total (api : Api) (pf : String) (tr : Trace) (s : PyVal)
    (hs : WellShapedSticker s)
    (hf : ∀ f, WellShapedFileInfo (api.getFile f))
    (how : ∀ p, api.openWriteOk p = true) :
    ∃ tr', processSticker api pf tr s = .ok tr' := by
  obtain ⟨fields, fid, uid, rfl, hfid, huid, hemoji⟩ := hs
  have h1 : pyGetItem (.obj fields) "file_id" = .ok fid := by simp [pyGetItem, hfid]
  have h2 : pyGetItem (.obj fields) "file_unique_id" = .ok uid := by simp [pyGetItem, huid]
  have h3 : ∃ eo, pyGet (.obj fields) "emoji" = .ok eo ∧ ∃ es, emojiStrOf eo = .ok es := by
    rcases hemoji with he | ⟨e, he⟩
    · exact ⟨Option.none, by simp [pyGet, he], Option.none, rfl⟩
    · exact ⟨some (.str e), by simp [pyGet, he], some e, rfl⟩
  obtain ⟨eo, heo, es, hes⟩ := h3
  cases hg : api.getFile (pyToStr fid) with
  | none => exact ⟨bump tr, by simp [processSticker, h1, hg]⟩
  | some fi =>
    have hw := hf (pyToStr fid)
    rw [hg] at hw
    rcases hw with hfalsy | ⟨ffields, rfl, hrest⟩
    · exact ⟨bump tr, by simp [processSticker, h1, hg, hfalsy]⟩
    · cases hft : truthy (.obj ffields) with
      | false => exact ⟨bump tr, by simp [processSticker, h1, hg, hft]⟩
      | true =>
        cases hto : truthy ((ffields.lookup "ok").getD .null) with
        | false => exact ⟨bump tr, by simp [processSticker, h1, hg, hft, pyGet, hto]⟩
        | true =>
          rcases hrest with hokf | ⟨rfields, fp, hres, hfp⟩
          · rw [hto] at hokf
            exact Bool.noConfusion hokf
          · have hlo : List.lookup "emoji" fields = eo := by simpa [pyGet] using heo
            obtain ⟨tl, hpl⟩ := processLocated_total api pf tr fp (pyToStr uid) es how
            refine ⟨bump tl, ?_⟩
            simp [processSticker, pyGetItem, pyGet, pyStr, hfid, hg, hft, hto, hres, hfp,
              huid, hlo, hes, hpl]

/-- The sticker loop completes without raising on a list of well-shaped
descriptors when the local filesystem cooperates. -/
theorem foldProcess_total (api : Api) (pf : String) :
    ∀ (l : List PyVal) (tr : Trace), (∀ s ∈ l, WellShapedSticker s) →
      (∀ f, WellShapedFileInfo (api.getFile f)) →
      (∀ p, api.openWriteOk p = true) →
      ∃ tr', foldProcess api pf tr l = .ok tr' := by
  intro l
  induction l with
  | nil => exact fun tr _ _ _ => ⟨tr, rfl⟩
  | cons s rest ih =>
    intro tr hws hf how
    obtain ⟨tr1, h1⟩ := processSticker_total api pf tr s (hws s (by simp)) hf how
    obtain ⟨tr', hrest⟩ := ih tr1 (fun x hx => hws x (by simp [hx])) hf how
    refine ⟨tr', ?_⟩
    simp only [foldProcess, h1]
    exact hrest

/-- C8 (amended): network failures in the remote calls, falsy or not-ok
responses, per-item lookup failures, download failures and conversion
failures are all caught: for every well-shaped remote world in which the
local filesystem operations succeed (`os.makedirs`, and `open`/`write` on
destination files), `download_sticker_pack` returns normally, with the
download and conversion oracles unconstrained; but an ok response lacking
expected fields raises an uncaught `KeyError`, and a local filesystem
failure in `_download_file` or at `os.makedirs` raises an uncaught
`OSError` (see the counterexample). -/
theorem c8_theorem (api : Api) (link out : String)
    (hp : ∀ n, WellShapedPackInfo (api.getStickerSet n))
    (hf : ∀ f, WellShapedFileInfo (api.getFile f))
    (how : ∀ p, api.openWriteOk p = true)
    (hmk : ∀ p, api.makedirsOk p = true) :
    ∃ tr, download_sticker_pack api link out = .ok tr := by
  have hwp := hp (lastSegment link)
  cases hg : api.getStickerSet (lastSegment link) with
  | none => exact ⟨packInfoErrorTrace, by simp [download_sticker_pack, hg]⟩
  | some pi =>
    rw [hg] at hwp
    rcases hwp with hfalsy | ⟨fields, rfl, hrest⟩
    · exact ⟨packInfoErrorTrace, by simp [download_sticker_pack, hg, hfalsy]⟩
    · cases hft : truthy (.obj fields) with
      | false => exact ⟨packInfoErrorTrace, by simp [download_sticker_pack, hg, hft]⟩
      | true =>
        cases hto : truthy ((fields.lookup "ok").getD .null) with
        | false =>
          exact ⟨packInfoErrorTrace, by simp [download_sticker_pack, hg, hft, pyGet, hto]⟩
        | true =>
          rcases hrest with hokf | ⟨rfields, title, stks, hres, htit, hstk, hws⟩
          · rw [hto] at hokf
            exact Bool.noConfusion hokf
          · obtain ⟨trf, hfold⟩ := foldProcess_total api (out ++ "/" ++ lastSegment link)
              stks { emptyTrace with madeDirs := [out ++ "/" ++ lastSegment link] } hws hf how
            refine ⟨{ trf with completed := true }, ?_⟩
            simp [download_sticker_pack, hg, hft, pyGet, hto, pyGetItem, hres, htit, hstk,
              pyIter, hfold, hmk]


/-- C3 counterexample: a pack whose single sticker resolves to a `.tgs`
path — not the lossy container format — still advances the "convert"
counter to 1 while the Image Converter is never invoked, so the counter
update does not accompany converter invocations only. -/
theorem c3_counterexample :
    (download_sticker_pack apiC3 "https://t.me/addstickers/P" "stickers").toOption.map
      (fun tr => (tr.convertAdv, tr.convertCalls)) = some (1, []) ∧
    stickerIsWebp apiC3 stkTgs = false := ⟨rfl, rfl⟩

/-- C3 witness: the amended statement evaluated on the concrete `.tgs`
sticker of `apiC3`. -/
theorem c3_witness :
    trC3.convertAdv =
      emptyTrace.convertAdv + (if (stickerLocated apiC3 stkTgs).isSome then 1 else 0) ∧
    trC3.convertCalls.length =
      emptyTrace.convertCalls.length + (if stickerIsWebp apiC3 stkTgs then 1 else 0) :=
  c3_theorem apiC3 "stickers/P" emptyTrace stkTgs trC3 rfl

/-- C5 witness: a failed metadata fetch (caught network error) yields the
error trace with no directory and no per-item work. -/
theorem c5_witness :
    download_sticker_pack apiQuiet "x" "stickers" = .ok packInfoErrorTrace ∧
    packInfoErrorTrace.madeDirs = [] ∧ packInfoErrorTrace.downloadCalls = [] ∧
    packInfoErrorTrace.convertCalls = [] ∧ packInfoErrorTrace.downloadAdv = 0 ∧
    packInfoErrorTrace.convertAdv = 0 ∧ packInfoErrorTrace.errors = ["pack_info"] ∧
    packInfoErrorTrace.completed = false :=
  c5_theorem apiQuiet "x" "stickers" (Or.inl rfl)

/-- C7 witness: a two-sticker pack in which every location lookup fails
still ends the run with the download counter at 2. -/
theorem c7_witness : trC7.downloadAdv = ([stkA, stkB] : List PyVal).length :=
  c7_theorem apiC7 "t.me/addstickers/Q" "stickers" trC7 [stkA, stkB] rfl rfl

/-- C8 counterexample: three error shapes that do escalate to a
process-level crash, against the claim.  A metadata response that is ok but
lacks the `result` field raises an uncaught `KeyError`; with a fully
well-shaped response, an `OSError` from `open`/`write` on the destination
file inside `_download_file` (not a `RequestException`, so not caught) or
from the unguarded `os.makedirs` aborts the run uncaught — so neither
malformed ok responses nor filesystem failures are confined. -/
theorem c8_counterexample :
    download_sticker_pack apiC8 "https://t.me/addstickers/P" "stickers" =
      .error (.keyError "result") ∧
    download_sticker_pack apiOsFail "https://t.me/addstickers/P" "stickers" =
      .error (.osError "open or write failed on the destination file") ∧
    download_sticker_pack apiMkdirFail "https://t.me/addstickers/P" "stickers" =
      .error (.osError "makedirs failed") := ⟨rfl, rfl, rfl⟩

/-- C8 witness: the amended no-crash statement evaluated on a world whose
every remote call fails with a caught network error. -/
theorem c8_witness : ∃ tr, download_sticker_pack apiQuiet "x" "stickers" = .ok tr :=
  c8_theorem apiQuiet "x" "stickers" (fun _ => trivial) (fun _ => trivial)
    (fun _ => rfl) (fun _ => rfl)

/-- C10 witness: the `.webp` sticker of `apiWebp`, whose byte-stream
download fails, still gets the converter invoked on its destination path. -/
theorem c10_witness :
    ∃ fp uid ef, stickerLocated apiWebp stkWebp = some (fp, uid, ef) ∧
      trC10.convertCalls = emptyTrace.convertCalls ++
        [("stickers/P" ++ "/" ++ stickerFileName uid ef (splitextExt fp),
          "stickers/P" ++ "/" ++ (stickerStem uid ef ++ ".png"))] :=
  c10_theorem apiWebp "stickers/P" emptyTrace stkWebp trC10 rfl rfl

end StickerV2
